import Mathlib

/-
Verification development for the intentkit platform sources.

Shallow embedding conventions:
* Monetary quantities are fixed-point decimals with 4 fractional digits
  (spec section 4.1); they are represented as `Int` multiples of 0.0001, so
  the literal `Decimal("0.0001")` is `1` and `Decimal("0.001")` is `10`.
* Timestamps (`created_at`, `updated_at`) are abstract `Nat` instants.
* Asynchronous database reads become explicit inputs; the external calls a
  function performs are returned as an explicit effect trace.
-/

namespace IntentKit

/-- Author role of a LangChain message as `app/core/node.py` observes it;
`remove` stands for a `RemoveMessage` directive. -/
inductive LCRole where
  | system
  | human
  | ai
  | tool
  | remove
deriving DecidableEq, Repr

/-- A LangChain chat message: role, message id, text content, and (for
assistant messages) the names of the tool calls it carries. Non-assistant
messages always carry an empty `tool_calls` list, matching the
`hasattr(msg, "tool_calls")` test in the source. -/
structure LCMessage where
  role : LCRole
  id : Nat
  content : String
  tool_calls : List String
deriving DecidableEq, Repr

/-- Modelled from the spec: `models/credit.py` (the `CreditAccount` model) is
not among the sources. Per the data model an account keeps three balances
`free_credits`, `reward_credits` and `credits` (permanent), in 0.0001 units. -/
structure CreditAccount where
  free_credits : Int
  reward_credits : Int
  credits : Int
deriving DecidableEq, Repr

/-- Modelled from the spec: the payer balance the payment gate compares
against the required amount is the total over the three credit classes. -/
def CreditAccount.balance (a : CreditAccount) : Int :=
  a.free_credits + a.reward_credits + a.credits

/-- Modelled from the spec: execution is blocked exactly when
"payer balance < required", so the account has sufficient credits exactly
when its balance reaches the required amount. -/
def CreditAccount.has_sufficient_credits (a : CreditAccount) (amount : Int) : Bool :=
  amount ≤ a.balance

/-- Error flag set on the agent state. `abstracts/graph.py` is not among the
sources; modelled from the spec error taxonomy (section 7). -/
inductive AgentError where
  | INSUFFICIENT_CREDITS
deriving DecidableEq, Repr

/-- The parts of the `RunnableConfig` that `PostModelNode._afunc` reads. -/
structure PostConfig where
  payer : Option String
  agent : Option String
deriving Repr

/-- External collaborators of the post-model gate. `skillCost name` is
`Skill.get(name)` composed with `skill_cost(...).total_amount`: `none` when
the skill metadata is absent, otherwise the gross cost of one call. Modelled
from the spec: `models/skill.py` and `app/core/credit.py` are not among the
sources; the spec says the gate looks up the skill's cost per tool call.
`account owner` is the `CreditAccount.get_or_create(OwnerType.USER, owner)`
result for that owner. -/
structure PostEnv where
  skillCost : String → Option Int
  account : String → CreditAccount

/-- Python-level failures of the node functions. -/
inductive PyError where
  | valueError (msg : String)
  | unboundLocal (name : String)
deriving DecidableEq, Repr

/-- The state update returned by the post-model node: an optional error flag
and an optional replacement message list; the empty update sets neither. -/
structure PostUpdate where
  error : Option AgentError
  messages : Option (List LCMessage)
deriving DecidableEq, Repr

/-- Trace of the external calls the node performed: which credit accounts
it read and how many ledger writes it issued. The source of the gate only
ever reads; no code path writes a `CreditEvent` or `CreditTransaction`. -/
structure PostEffects where
  accountReads : List String
  ledgerWrites : Nat
deriving DecidableEq, Repr

/-- The empty `state_update = {}` dictionary. -/
def emptyPostUpdate : PostUpdate := { error := none, messages := none }

/-- Final value of the `total_paid` variable in `PostModelNode._afunc`: the
loop body runs `total_paid = skill_cost_info.total_amount` — an assignment,
not an accumulation — once per tool call whose skill metadata resolves, so
the last resolved cost wins; `none` when the variable is never assigned
(Python would raise `UnboundLocalError` on the subsequent read). -/
def lastKnownCost (cost : String → Option Int) (calls : List String) : Option Int :=
  calls.foldl (fun acc n => match cost n with | some c => some c | none => acc) none

/-- Content of the synthetic message appended by the gate, translated from
the f-string in `PostModelNode._afunc`; amounts rendered in 0.0001 units. -/
def insufficientContent (need bal : Int) : String :=
  "Insufficient credits. Please top up your account. You need " ++ toString need ++
    " credits, but you only have " ++ toString bal ++ " credits."

/-- The `AIMessage(content=...)` appended by the gate: assistant (`ai`) role,
no tool calls; its freshly generated id is irrelevant here and fixed to 0. -/
def insufficientMessage (need bal : Int) : LCMessage :=
  { role := .ai, id := 0, content := insufficientContent need bal, tool_calls := [] }

/-- The `RemoveMessage(id=msg.id)` written over the tool-call message slot. -/
def removeDirective (i : Nat) : LCMessage :=
  { role := .remove, id := i, content := "", tool_calls := [] }

/-- Shallow embedding of `PostModelNode._afunc` (`app/core/node.py`): reject
an empty message list, return the empty update when the config carries no
payer, otherwise read the payer's account and, when the last message carries
tool calls, compare the payer's balance against the final `total_paid` value;
on insufficient credits replace the last message by a removal directive plus
the synthetic insufficient-credits message and set the error flag. -/
def postModelAfunc (env : PostEnv) (cfg : PostConfig) (messages : List LCMessage) :
    Except PyError (PostUpdate × PostEffects) :=
  if hempty : messages = [] then
    .error (.valueError "Missing required field messages in the input.")
  else
    match cfg.payer with
    | none => .ok (emptyPostUpdate, { accountReads := [], ledgerWrites := 0 })
    | some payer =>
      let msg := messages.getLast hempty
      let account := env.account payer
      let fx : PostEffects := { accountReads := [payer], ledgerWrites := 0 }
      if msg.tool_calls = [] then
        .ok (emptyPostUpdate, fx)
      else
        match lastKnownCost env.skillCost msg.tool_calls with
        | none => .error (.unboundLocal "total_paid")
        | some total_paid =>
          if account.has_sufficient_credits total_paid then
            .ok (emptyPostUpdate, fx)
          else
            .ok ({ error := some .INSUFFICIENT_CREDITS,
                   messages := some (messages.dropLast ++
                     [removeDirective msg.id,
                      insufficientMessage total_paid account.balance]) },
                 fx)

/-- Substring test used to state properties of message contents. -/
def strContains (s sub : String) : Bool :=
  decide (sub.data <:+: s.data)

/-- Direction of a credit transaction. -/
inductive CreditDebit where
  | credit
  | debit
deriving DecidableEq, Repr

/-- A row of the `credit_accounts` table, restricted to the fields the
audits read. Amounts in 0.0001 units. -/
structure AccountRow where
  id : String
  free_credits : Int
  reward_credits : Int
  credits : Int
  updated_at : Nat
deriving DecidableEq, Repr

/-- A row of the `credit_transactions` table, restricted to the fields the
audits and the rebuild script read. -/
structure TxRow where
  account_id : String
  credit_debit : CreditDebit
  change_amount : Int
  free_amount : Int
  reward_amount : Int
  permanent_amount : Int
  created_at : Nat
deriving DecidableEq, Repr

/-- An `AccountCheckingResult`: check type, pass/fail status, and the numeric
detail fields the check reports. -/
structure CheckResult where
  check_type : String
  status : Bool
  details : List (String × Int)
deriving DecidableEq, Repr

/-- Sum of `f` over a list, the repeated SQL `SUM` aggregate. -/
def sumBy {α : Type} (f : α → Int) (l : List α) : Int :=
  (l.map f).sum

/-- The `max(account.updated_at ...)` snapshot instant, `none` when there are
no accounts (`max([...]) if accounts else None`). -/
def maxUpdatedAt : List AccountRow → Option Nat
  | [] => none
  | a :: rest => some (rest.foldl (fun m b => max m b.updated_at) a.updated_at)

/-- Credit-direction total of one account's snapshot-limited transactions:
the SQL `SUM(CASE WHEN credit_debit = 'credit' THEN change_amount ELSE 0 END)`
over rows with this `account_id` and `created_at <= max_updated_at`. -/
def txCreditSum (txs : List TxRow) (aid : String) (maxU : Nat) : Int :=
  sumBy (fun t => if t.credit_debit = .credit then t.change_amount else 0)
    (txs.filter (fun t => t.account_id == aid && t.created_at ≤ maxU))

/-- Debit-direction total of one account's snapshot-limited transactions. -/
def txDebitSum (txs : List TxRow) (aid : String) (maxU : Nat) : Int :=
  sumBy (fun t => if t.credit_debit = .debit then t.change_amount else 0)
    (txs.filter (fun t => t.account_id == aid && t.created_at ≤ maxU))

/-- The audit row `check_account_balance_consistency` emits for one account:
stored total across the three classes versus credit-minus-debit over the
snapshot-limited transactions, compared exactly. -/
def accountBalanceResult (txs : List TxRow) (maxU : Nat) (a : AccountRow) : CheckResult :=
  let total_balance := a.free_credits + a.reward_credits + a.credits
  let credits := txCreditSum txs a.id maxU
  let debits := txDebitSum txs a.id maxU
  let expected_balance := credits - debits
  { check_type := "account_total_balance",
    status := total_balance == expected_balance,
    details := [("current_total_balance", total_balance),
                ("expected_balance", expected_balance),
                ("total_credits", credits),
                ("total_debits", debits),
                ("difference", total_balance - expected_balance)] }

/-- Shallow embedding of `check_account_balance_consistency`
(`app/admin/account_checking.py`). -/
def check_account_balance_consistency (accounts : List AccountRow) (txs : List TxRow) :
    List CheckResult :=
  match maxUpdatedAt accounts with
  | none => []
  | some maxU => accounts.map (accountBalanceResult txs maxU)

/-- The near-zero allowance `Decimal("0.001")` of the two global audits, in
0.0001 units. -/
def roundingTolerance : Int := 10

/-- Shallow embedding of `check_total_credit_balance`: sum the three credit
classes over all accounts; the status starts as exact-zero equality and is
upgraded to a pass when the absolute grand total is below 0.001. -/
def check_total_credit_balance (accounts : List AccountRow) : CheckResult :=
  let total_free := sumBy (fun a => a.free_credits) accounts
  let total_reward := sumBy (fun a => a.reward_credits) accounts
  let total_permanent := sumBy (fun a => a.credits) accounts
  let grand_total := total_free + total_reward + total_permanent
  let is_balanced := grand_total == 0
  let is_balanced := if !is_balanced && |grand_total| < roundingTolerance then
    true else is_balanced
  { check_type := "total_credit_balance",
    status := is_balanced,
    details := [("total_free_credits", total_free),
                ("total_reward_credits", total_reward),
                ("total_permanent_credits", total_permanent),
                ("grand_total", grand_total)] }

/-- Shallow embedding of `check_transaction_total_balance`: global
credit-direction total versus global debit-direction total, with the same
below-0.001 rounding allowance. -/
def check_transaction_total_balance (txs : List TxRow) : CheckResult :=
  let total_credits :=
    sumBy (fun t => if t.credit_debit = .credit then t.change_amount else 0) txs
  let total_debits :=
    sumBy (fun t => if t.credit_debit = .debit then t.change_amount else 0) txs
  let difference := total_credits - total_debits
  let is_balanced := difference == 0
  let is_balanced := if !is_balanced && |difference| < roundingTolerance then
    true else is_balanced
  { check_type := "transaction_total_balance",
    status := is_balanced,
    details := [("total_credits", total_credits),
                ("total_debits", total_debits),
                ("difference", difference)] }

/-- Shallow embedding of `calculate_credits_from_transactions`
(`scripts/fix_credit_accounts_from_transactions.py`): per credit class,
credit-direction rows add the class amount and debit-direction rows subtract
it, over the account's complete transaction history. -/
def calculate_credits_from_transactions (txs : List TxRow) : Int × Int × Int :=
  (sumBy (fun t => match t.credit_debit with
    | .credit => t.free_amount
    | .debit => -t.free_amount) txs,
   sumBy (fun t => match t.credit_debit with
    | .credit => t.reward_amount
    | .debit => -t.reward_amount) txs,
   sumBy (fun t => match t.credit_debit with
    | .credit => t.permanent_amount
    | .debit => -t.permanent_amount) txs)

/-- Outcome of `process_single_account`: the returned `(success, changed)`
pair together with the stored balances after the call. -/
structure FixOutcome where
  success : Bool
  changed : Bool
  stored : Int × Int × Int
deriving DecidableEq, Repr

/-- Shallow embedding of `process_single_account`: compare the stored total
with the recomputed total; a difference above `Decimal("0.0001")` (1 unit) is
a mismatch, reported with no overwrite; otherwise overwrite exactly when not
a dry run and some class value changed. -/
def process_single_account (stored : Int × Int × Int) (txs : List TxRow)
    (dry_run : Bool) : FixOutcome :=
  let current_total := stored.1 + stored.2.1 + stored.2.2
  let recomputed := calculate_credits_from_transactions txs
  let calc_total := recomputed.1 + recomputed.2.1 + recomputed.2.2
  if 1 < |current_total - calc_total| then
    { success := false, changed := false, stored := stored }
  else
    let values_changed := stored.1 != recomputed.1 || stored.2.1 != recomputed.2.1 ||
      stored.2.2 != recomputed.2.2
    if !dry_run && values_changed then
      { success := true, changed := true, stored := recomputed }
    else
      { success := true, changed := values_changed, stored := stored }

/-- Total of the recomputed class balances of an account. -/
def calcTotal (txs : List TxRow) : Int :=
  (calculate_credits_from_transactions txs).1 +
    (calculate_credits_from_transactions txs).2.1 +
    (calculate_credits_from_transactions txs).2.2

/-- Approximate token estimate of a message list: an abstract per-message
count `tc`, summed over the list (`count_tokens_approximately` is external
to the repository; only additivity over messages is used). -/
def tokensOf (tc : LCMessage → Nat) (ms : List LCMessage) : Nat :=
  (ms.map tc).sum

/-- Does a message match the `start_on="human"` boundary type. -/
def isHumanMsg (m : LCMessage) : Bool :=
  m.role == .human

/-- Does a message match the `end_on=("human", "tool")` boundary types. -/
def isHumanOrToolMsg (m : LCMessage) : Bool :=
  m.role == .human || m.role == .tool

/-- Drop messages from the end of the list until the boundary message
satisfies `p`. -/
def dropEndUntil (p : LCMessage → Bool) (ms : List LCMessage) : List LCMessage :=
  (ms.reverse.dropWhile (fun m => !p m)).reverse

/-- Drop messages from the start of the list until the first one satisfies
`p`. -/
def dropStartUntil (p : LCMessage → Bool) (ms : List LCMessage) : List LCMessage :=
  ms.dropWhile (fun m => !p m)

/-- The longest suffix of the list whose token estimate fits the budget
(empty when not even the last message alone fits). -/
def longestFittingSuffix (tc : LCMessage → Nat) (budget : Nat) :
    List LCMessage → List LCMessage
  | [] => []
  | m :: rest =>
    if tokensOf tc (m :: rest) ≤ budget then m :: rest
    else longestFittingSuffix tc budget rest

/-- Modelled from the spec: `trim_messages` lives in the external
`langchain_core` package, not in this repository. Per spec section 4.5 and
the call-site parameters in `PreModelNode._afunc` (`strategy="last"`,
`start_on="human"`, `end_on=("human", "tool")`): cut messages from the end
until the boundary is a human or tool message, keep the most recent suffix
whose token estimate fits the budget, then cut from the front so the kept
block starts with a human message. -/
def trimMessagesLast (tc : LCMessage → Nat) (budget : Nat)
    (ms : List LCMessage) : List LCMessage :=
  dropStartUntil isHumanMsg
    (longestFittingSuffix tc budget (dropEndUntil isHumanOrToolMsg ms))

/-- Configuration of `PreModelNode` as stored by its `__init__`; the source
also sets `max_tokens_before_summary = max_tokens` and defaults
`max_summary_tokens` to 1024. -/
structure PreModelNode where
  short_term_memory_strategy : String
  max_tokens : Nat
  max_summary_tokens : Nat
deriving DecidableEq, Repr

/-- Result of the pre-model hook: the trim branch returns a remove-all
directive plus the trimmed list (`update`); the summarize branch hands the
listed token limits to the external `asummarize_messages`; an empty history
or an unknown strategy raises a `ValueError`. -/
inductive PreOutcome where
  | update (messages : List LCMessage)
  | summarizeCall (max_tokens max_tokens_before_summary max_summary_tokens : Nat)
      (messages : List LCMessage)
  | raised (msg : String)
deriving DecidableEq, Repr

/-- Shallow embedding of `PreModelNode._parse_input` followed by
`PreModelNode._afunc` (`app/core/node.py`). Note the source passes
`max_tokens=self.max_summary_tokens` to the trim call. -/
def preModelAfunc (node : PreModelNode) (tc : LCMessage → Nat)
    (messages : List LCMessage) : PreOutcome :=
  if messages = [] then
    .raised "Missing required field messages in the input."
  else if node.short_term_memory_strategy = "trim" then
    .update (trimMessagesLast tc node.max_summary_tokens messages)
  else if node.short_term_memory_strategy = "summarize" then
    .summarizeCall node.max_tokens node.max_tokens node.max_summary_tokens messages
  else
    .raised "Invalid short_term_memory_strategy"

/-- Schedule fields of a generated autonomous config as read from the LLM
JSON: `config_data.get("minutes")` and `config_data.get("cron")`. -/
structure ScheduleInput where
  minutes : Option Int
  cron : Option String
deriving DecidableEq, Repr

/-- Outcome of the schedule-selection block of
`generate_autonomous_configuration`: either the configuration is kept with
the chosen schedule keys, or the function returns `None`. -/
inductive ScheduleOutcome where
  | accepted (minutes : Option Int) (cron : Option String)
  | rejected
deriving DecidableEq, Repr

/-- Python truthiness of the optional `minutes` value. -/
def truthyMinutes : Option Int → Bool
  | none => false
  | some m => m != 0

/-- Python truthiness of the optional `cron` value. -/
def truthyCron : Option String → Bool
  | none => false
  | some s => s != ""

/-- Shallow embedding of the schedule selection in
`generate_autonomous_configuration`
(`app/admin/generator/autonomous_generator.py`, lines 190-202): a truthy
`minutes` is kept as `max(5, minutes)` (the source comment reads
"Enforce minimum 5 minutes"), else a truthy `cron` is kept, else the
configuration is dropped. -/
def setAutonomousSchedule (c : ScheduleInput) : ScheduleOutcome :=
  if truthyMinutes c.minutes then
    .accepted (some (max 5 (c.minutes.getD 0))) none
  else if truthyCron c.cron then
    .accepted none c.cron
  else
    .rejected

/-- Author taxonomy of persisted chat messages (`AuthorType`): `api` is a
user-authored message. -/
inductive AuthorType where
  | api
  | agent
  | skill
  | system
deriving DecidableEq, Repr

/-- A persisted chat message as `retry_message` reads it: author kind, text
content and creation instant; within one thread `created_at` follows
insertion order (spec section 5 ordering guarantee). -/
structure ThreadMsg where
  author_type : AuthorType
  message : String
  created_at : Nat
deriving DecidableEq, Repr

/-- Modelled from the spec: the `SKILL_INTERRUPTED` system message built by
`ChatMessageCreate.from_system_message` (`models/chat.py` is not among the
sources); the spec says a typed system notice is emitted. -/
def skillInterruptedNotice : ThreadMsg :=
  { author_type := .system, message := "skill interrupted", created_at := 0 }

/-- Outcome of the retry endpoint: the returned message list, the content of
the fresh request handed to `execute_agent` when one is started (so `none`
means no new model run and no new cost), and whether the interruption notice
was persisted. -/
structure RetryResult where
  returned : List ThreadMsg
  executed : Option String
  notice : Bool
deriving DecidableEq, Repr

/-- Shallow embedding of `retry_message` (`app/entrypoints/agent_api.py`)
over one thread's messages listed in `created_at` order. `exec_agent c` is
the buffered list `execute_agent` produces for a fresh user message with
content `c`. The database queries become list operations: the newest row is
the last element, the newest API-authored row is the last API element, and
the rows after it are those with a larger `created_at`. -/
def retry_message (exec_agent : String → List ThreadMsg)
    (msgs : List ThreadMsg) : Except String RetryResult :=
  match msgs.getLast? with
  | none => .error "No messages found"
  | some last =>
    if last.author_type == .agent || last.author_type == .system then
      match msgs.reverse.find? (fun m => m.author_type == .api) with
      | none => .ok { returned := [last], executed := none, notice := false }
      | some u =>
        let after := msgs.filter (fun m => u.created_at < m.created_at)
        if after = [] then
          .ok { returned := [last], executed := none, notice := false }
        else
          .ok { returned := after, executed := none, notice := false }
    else if last.author_type == .skill then
      .ok { returned := [last, skillInterruptedNotice], executed := none,
            notice := true }
    else
      .ok { returned := exec_agent last.message,
            executed := some last.message, notice := false }

/- Concrete inputs used to evaluate the embeddings at specific scenarios. -/

/-- Gate environment with two priced skills (3 and 2 units) and a payer
holding 4 units in total. -/
def envC1 : PostEnv :=
  { skillCost := fun n =>
      if n = "alpha" then some 3 else if n = "beta" then some 2 else none,
    account := fun _ => { free_credits := 4, reward_credits := 0, credits := 0 } }

/-- Config naming the payer of the two-tool-call scenario. -/
def cfgC1 : PostConfig := { payer := some "u1", agent := none }

/-- An assistant turn carrying two tool calls, after one user message. -/
def msgsC1 : List LCMessage :=
  [{ role := .human, id := 1, content := "hi", tool_calls := [] },
   { role := .ai, id := 2, content := "", tool_calls := ["alpha", "beta"] }]

/-- Gate environment with one skill costing 50 units and a payer holding 10. -/
def envC2 : PostEnv :=
  { skillCost := fun n => if n = "gamma" then some 50 else none,
    account := fun _ => { free_credits := 10, reward_credits := 0, credits := 0 } }

/-- Config naming the payer of the single-tool-call scenario. -/
def cfgC2 : PostConfig := { payer := some "u2", agent := none }

/-- The user message ahead of the gated assistant turn. -/
def msgC2user : LCMessage :=
  { role := .human, id := 6, content := "do it", tool_calls := [] }

/-- The assistant turn carrying the single unaffordable tool call. -/
def msgC2ai : LCMessage :=
  { role := .ai, id := 7, content := "", tool_calls := ["gamma"] }

/-- A lone account holding 0.0005: a non-zero grand total below 0.001. -/
def acctC3 : AccountRow :=
  { id := "a3", free_credits := 5, reward_credits := 0, credits := 0, updated_at := 0 }

/-- An account storing permanent credits 5.0000 (50000 units). -/
def acctC4 : AccountRow :=
  { id := "a4", free_credits := 0, reward_credits := 0, credits := 50000, updated_at := 1 }

/-- The account's sole transaction: a credit of 4.9999 (49999 units). -/
def txC4 : TxRow :=
  { account_id := "a4", credit_debit := .credit, change_amount := 49999,
    free_amount := 0, reward_amount := 0, permanent_amount := 49999, created_at := 0 }

/-- A credit of 5.0000 in the free class, for the rebuild scenario. -/
def txC5 : TxRow :=
  { account_id := "a5", credit_debit := .credit, change_amount := 50000,
    free_amount := 50000, reward_amount := 0, permanent_amount := 0, created_at := 0 }

/-- A trim node whose token budget is 100 but whose summary cap is 5. -/
def nodeC6 : PreModelNode :=
  { short_term_memory_strategy := "trim", max_tokens := 100, max_summary_tokens := 5 }

/-- A simple monotone token estimate: the content length of each message. -/
def tcLen : LCMessage → Nat := fun m => m.content.length

/-- A 10-token history (well under the budget of 100): user, assistant, user. -/
def msgsC6 : List LCMessage :=
  [{ role := .human, id := 1, content := "aaa", tool_calls := [] },
   { role := .ai, id := 2, content := "bbbb", tool_calls := [] },
   { role := .human, id := 3, content := "ccc", tool_calls := [] }]

/-- The only message of `msgsC6` the mis-budgeted trim keeps. -/
def msgC6kept : LCMessage :=
  { role := .human, id := 3, content := "ccc", tool_calls := [] }

/-- A trim node with matching budget and summary cap of 100 tokens. -/
def nodeC7 : PreModelNode :=
  { short_term_memory_strategy := "trim", max_tokens := 100, max_summary_tokens := 100 }

/-- A 2-token history consisting of one assistant message. -/
def msgC7ai : LCMessage := { role := .ai, id := 1, content := "hi", tool_calls := [] }

/-- A 2-token history consisting of one user message. -/
def msgC7human : LCMessage := { role := .human, id := 2, content := "ok", tool_calls := [] }

/-- A gate environment with no known skills and empty accounts. -/
def envC10 : PostEnv :=
  { skillCost := fun _ => none,
    account := fun _ => { free_credits := 0, reward_credits := 0, credits := 0 } }

/-- A history whose assistant turn carries a tool call, for the no-payer run. -/
def msgsC10 : List LCMessage :=
  [{ role := .human, id := 1, content := "go", tool_calls := [] },
   { role := .ai, id := 2, content := "", tool_calls := ["anything"] }]

/-- Stand-in for `execute_agent` on a fresh user message: one agent reply
echoing the submitted content. -/
def execEcho : String → List ThreadMsg :=
  fun s => [{ author_type := .agent, message := s, created_at := 99 }]

/-- The user message "hi" of the retry thread. -/
def userHi : ThreadMsg := { author_type := .api, message := "hi", created_at := 0 }

/-- The final agent message "hello" of the retry thread. -/
def agentHello : ThreadMsg := { author_type := .agent, message := "hello", created_at := 1 }

/- Helper lemmas shared across the claim theorems. -/

/-- The pass/fail rule shared by the two global audits: the upgraded status
is false exactly when the audited quantity reaches the rounding tolerance. -/
theorem auditStatusIffTolerance (g : Int) :
    (if !(g == 0) && decide (|g| < roundingTolerance) then true else g == 0) = false ↔
      roundingTolerance ≤ |g| := by
  rcases eq_or_ne g 0 with h | h
  · subst h
    simp [roundingTolerance]
  · have hb : (g == 0) = false := beq_eq_false_iff_ne.mpr h
    rw [hb]
    simp [not_lt]

/-- Unfolding of `sumBy` over a cons cell. -/
theorem sumBy_cons {α : Type} (f : α → Int) (a : α) (l : List α) :
    sumBy f (a :: l) = f a + sumBy f l := by
  simp [sumBy]

/-- A credit-minus-debit signed sum splits into the credit-row total minus
the debit-row total. -/
theorem signed_class_sum (f : TxRow → Int) (txs : List TxRow) :
    sumBy (fun t => match t.credit_debit with
      | .credit => f t
      | .debit => -f t) txs =
    sumBy f (txs.filter (fun t => t.credit_debit == .credit)) -
      sumBy f (txs.filter (fun t => t.credit_debit == .debit)) := by
  induction txs with
  | nil => simp [sumBy]
  | cons t rest ih =>
    cases h : t.credit_debit <;>
      simp [sumBy_cons, List.filter_cons, h, ih] <;> ring

/-- A substring witnessed by an explicit decomposition of the character data. -/
theorem strContains_of_data_eq (s sub : String) (p q : List Char)
    (h : s.data = p ++ sub.data ++ q) : strContains s sub = true := by
  simp only [strContains, decide_eq_true_eq]
  exact ⟨p, q, h.symm⟩

/-- Substring containment is preserved when text is appended on the right. -/
theorem strContains_appendLeft (s t sub : String) (h : strContains s sub = true) :
    strContains (s ++ t) sub = true := by
  simp only [strContains, decide_eq_true_eq] at h ⊢
  rw [String.data_append s t]
  exact h.trans (List.prefix_append s.data t.data).isInfix

/-- Substring containment is preserved when text is prepended on the left. -/
theorem strContains_appendRight (s t sub : String) (h : strContains t sub = true) :
    strContains (s ++ t) sub = true := by
  simp only [strContains, decide_eq_true_eq] at h ⊢
  rw [String.data_append s t]
  exact h.trans (List.suffix_append s.data t.data).isInfix

/-- Every string contains itself. -/
theorem strContains_self (s : String) : strContains s s = true := by
  simp only [strContains, decide_eq_true_eq]
  exact List.infix_rfl

/-- The gate's synthetic content contains the fixed prefix
"Insufficient credits" and the decimal renderings of the required amount and
of the payer's balance. -/
theorem insufficientContent_contains (need bal : Int) :
    strContains (insufficientContent need bal) "Insufficient credits" = true ∧
    strContains (insufficientContent need bal) (toString need) = true ∧
    strContains (insufficientContent need bal) (toString bal) = true := by
  unfold insufficientContent
  refine ⟨?_, ?_, ?_⟩
  · refine strContains_appendLeft _ _ _ (strContains_appendLeft _ _ _
      (strContains_appendLeft _ _ _ (strContains_appendLeft _ _ _ ?_)))
    exact strContains_of_data_eq _ _ [] ". Please top up your account. You need ".data
      (by decide)
  · refine strContains_appendLeft _ _ _ (strContains_appendLeft _ _ _
      (strContains_appendLeft _ _ _ ?_))
    exact strContains_appendRight _ _ _ (strContains_self _)
  · refine strContains_appendLeft _ _ _ ?_
    exact strContains_appendRight _ _ _ (strContains_self _)

/-- C1: the claim says the payment gate requires the sum of the per-skill
costs over all tool calls of the turn and blocks iff the balance is below
that sum. The code overwrites `total_paid` on every loop iteration, so at
the failing input — two tool calls costing 3 and 2 units against a balance
of 4 units — the final `total_paid` is 2, the sufficiency test passes, and
the gate returns the empty update although the sum 5 exceeds the balance. -/
theorem c1_payment_gate_uses_last_cost_not_sum :
    lastKnownCost envC1.skillCost ["alpha", "beta"] = some 2 ∧
    (envC1.account "u1").balance < 3 + 2 ∧
    postModelAfunc envC1 cfgC1 msgsC1 =
      .ok (emptyPostUpdate, { accountReads := ["u1"], ledgerWrites := 0 }) := by
  refine ⟨rfl, by decide, rfl⟩

/-- C3 counterexample: an account population whose grand total is 0.0005 —
non-zero — is reported as balanced (status true), refuting "fails if and
only if the sum is non-zero". -/
theorem c3_small_nonzero_total_reported_balanced :
    (check_total_credit_balance [acctC3]).status = true ∧
    (check_total_credit_balance [acctC3]).details.lookup "grand_total" = some 5 ∧
    (5 : Int) ≠ 0 := by
  decide

/-- C3 amended: each global audit reports failure exactly when the absolute
value of its audited quantity is at least the 0.001 rounding allowance: the
total-credit-balance audit on the grand total of the three classes, the
transaction-total-balance audit on the credit-total minus debit-total. -/
theorem c3_global_audits_fail_iff_tolerance_reached
    (accounts : List AccountRow) (txs : List TxRow) :
    ((check_total_credit_balance accounts).status = false ↔
      roundingTolerance ≤
        |sumBy (fun a => a.free_credits) accounts +
          sumBy (fun a => a.reward_credits) accounts +
          sumBy (fun a => a.credits) accounts|) ∧
    ((check_transaction_total_balance txs).status = false ↔
      roundingTolerance ≤
        |sumBy (fun t => if t.credit_debit = .credit then t.change_amount else 0) txs -
          sumBy (fun t => if t.credit_debit = .debit then t.change_amount else 0) txs|) := by
  constructor
  · simpa [check_total_credit_balance] using
      auditStatusIffTolerance
        (sumBy (fun a => a.free_credits) accounts +
          sumBy (fun a => a.reward_credits) accounts +
          sumBy (fun a => a.credits) accounts)
  · simpa [check_transaction_total_balance] using
      auditStatusIffTolerance
        (sumBy (fun t => if t.credit_debit = .credit then t.change_amount else 0) txs -
          sumBy (fun t => if t.credit_debit = .debit then t.change_amount else 0) txs)

/-- C4: whenever an account's stored total differs from the signed
transaction total up to the audit snapshot — by any non-zero amount, 0.0001
included — the per-account audit emits an `account_total_balance` result
with status false whose reported difference is stored minus expected. -/
theorem c4_account_balance_mismatch_flagged
    (accounts : List AccountRow) (txs : List TxRow) (a : AccountRow) (maxU : Nat)
    (ha : a ∈ accounts) (hmax : maxUpdatedAt accounts = some maxU)
    (hdiff : a.free_credits + a.reward_credits + a.credits ≠
      txCreditSum txs a.id maxU - txDebitSum txs a.id maxU) :
    accountBalanceResult txs maxU a ∈ check_account_balance_consistency accounts txs ∧
    (accountBalanceResult txs maxU a).check_type = "account_total_balance" ∧
    (accountBalanceResult txs maxU a).status = false ∧
    (accountBalanceResult txs maxU a).details.lookup "difference" =
      some (a.free_credits + a.reward_credits + a.credits -
        (txCreditSum txs a.id maxU - txDebitSum txs a.id maxU)) := by
  refine ⟨?_, rfl, ?_, rfl⟩
  · unfold check_account_balance_consistency
    rw [hmax]
    exact List.mem_map_of_mem _ ha
  · simp only [accountBalanceResult]
    exact beq_eq_false_iff_ne.mpr hdiff

/-- C4 witness: the spec's seeded scenario — stored permanent credits 5.0000
against transactions summing to 4.9999 — is flagged with difference 0.0001
(one unit). -/
theorem c4_account_balance_mismatch_flagged_witness :
    accountBalanceResult [txC4] 1 acctC4 ∈
      check_account_balance_consistency [acctC4] [txC4] ∧
    (accountBalanceResult [txC4] 1 acctC4).check_type = "account_total_balance" ∧
    (accountBalanceResult [txC4] 1 acctC4).status = false ∧
    (accountBalanceResult [txC4] 1 acctC4).details.lookup "difference" = some 1 := by
  have h := c4_account_balance_mismatch_flagged [acctC4] [txC4] acctC4 1
    (by decide) (by decide) (by decide)
  exact h

/-- C6: the claim says trim keeps the most recent messages within the
configured token budget. At the failing input the node's budget
(`max_tokens`) is 100 and the 10-token history should be kept whole, but the
source passes `max_tokens=self.max_summary_tokens` (here 5) to the trim
call, so only the final 3-token user message survives. -/
theorem c6_trim_budget_is_summary_cap_not_max_tokens :
    tokensOf tcLen msgsC6 = 10 ∧
    tokensOf tcLen msgsC6 ≤ nodeC6.max_tokens ∧
    nodeC6.max_summary_tokens = 5 ∧
    preModelAfunc nodeC6 tcLen msgsC6 = .update [msgC6kept] ∧
    [msgC6kept] ≠ msgsC6 := by
  decide

/-- C8 counterexample: a 2-minute interval — below the 5-minute minimum — is
not rejected: the configuration is accepted with the interval clamped to 5. -/
theorem c8_two_minute_interval_accepted :
    setAutonomousSchedule { minutes := some 2, cron := none } =
      .accepted (some 5) none ∧
    setAutonomousSchedule { minutes := some 2, cron := none } ≠ .rejected ∧
    (2 : Int) < 5 := by
  decide

/-- C8 amended: a truthy interval below 5 minutes is clamped up to exactly 5
minutes and the configuration is accepted with that interval (a missing or
zero interval without a cron expression is the only rejected schedule). -/
theorem c8_low_interval_clamped_to_five (m : Int) (c : Option String)
    (hm : m ≠ 0) (hlow : m < 5) :
    setAutonomousSchedule { minutes := some m, cron := c } =
      .accepted (some 5) none ∧
    setAutonomousSchedule { minutes := some m, cron := c } ≠ .rejected := by
  have ht : truthyMinutes (some m) = true := by
    simp [truthyMinutes, hm]
  constructor
  · simp [setAutonomousSchedule, ht, max_eq_left (le_of_lt hlow)]
  · simp [setAutonomousSchedule, ht]

/-- C8 witness: the amended claim evaluated at a 2-minute interval. -/
theorem c8_low_interval_clamped_to_five_witness :
    setAutonomousSchedule { minutes := some 2, cron := none } =
      .accepted (some 5) none ∧
    setAutonomousSchedule { minutes := some 2, cron := none } ≠ .rejected :=
  c8_low_interval_clamped_to_five 2 none (by decide) (by decide)

/-- C9: retry dispatches on the author of the thread's newest message: after
an agent or system message it returns exactly the tail of messages following
the last user (API) message, starting no new execution (so charging no new
cost); after a user message it re-executes the same content as a fresh
request; after a skill message it returns the message plus a system-authored
interruption notice and stops. -/
theorem c9_retry_last_by_author (ex : String → List ThreadMsg)
    (msgs : List ThreadMsg) (last : ThreadMsg)
    (hsorted : msgs.Pairwise (fun a b => a.created_at < b.created_at))
    (hlast : msgs.getLast? = some last) :
    ((last.author_type = .agent ∨ last.author_type = .system) →
      ∀ u pre after, msgs = pre ++ u :: after → u.author_type = .api →
        (∀ m ∈ after, m.author_type ≠ .api) →
        retry_message ex msgs =
          .ok { returned := after, executed := none, notice := false }) ∧
    (last.author_type = .skill →
      retry_message ex msgs =
        .ok { returned := [last, skillInterruptedNotice], executed := none,
              notice := true } ∧
      skillInterruptedNotice.author_type = .system) ∧
    (last.author_type = .api →
      retry_message ex msgs =
        .ok { returned := ex last.message, executed := some last.message,
              notice := false }) := by
  refine ⟨?_, ?_, ?_⟩
  · rintro hauth u pre after rfl hu hafter
    have hnone : after.reverse.find? (fun m => m.author_type == .api) = none := by
      rw [List.find?_eq_none]
      intro x hx
      simpa using hafter x (List.mem_reverse.mp hx)
    rw [List.pairwise_append] at hsorted
    obtain ⟨hpre, hcons, hcross⟩ := hsorted
    rw [List.pairwise_cons] at hcons
    obtain ⟨hu_lt, hafterPW⟩ := hcons
    have hpre_nil : pre.filter (fun m => u.created_at < m.created_at) = [] := by
      rw [List.filter_eq_nil_iff]
      intro a ha
      have hlt := hcross a ha u (List.mem_cons_self u after)
      simp [Nat.lt_asymm hlt]
    have hafter_all : after.filter (fun m => u.created_at < m.created_at)
        = after := by
      rw [List.filter_eq_self]
      intro b hb
      simpa using hu_lt b hb
    have hne : after ≠ [] := by
      intro h0
      subst h0
      rw [List.getLast?_concat] at hlast
      have heq : last = u := (Option.some.inj hlast).symm
      rcases hauth with h | h <;> rw [heq, hu] at h <;> exact absurd h (by decide)
    obtain ⟨a0, as0, h0⟩ : ∃ x xs, after = x :: xs := by
      cases after with
      | nil => exact absurd rfl hne
      | cons x xs => exact ⟨x, xs, rfl⟩
    have hmem : a0 ∈ after := by
      rw [h0]
      exact List.mem_cons_self a0 as0
    have hafter_not_all : ¬ ∀ a ∈ after, a.created_at ≤ u.created_at := by
      intro hall
      exact absurd (hall a0 hmem) (not_le.mpr (hu_lt a0 hmem))
    unfold retry_message
    rw [hlast]
    rcases hauth with h | h <;>
      simp [h, hnone, hu, hafter_not_all, hpre_nil, hafter_all, hne]
  · intro h
    refine ⟨?_, rfl⟩
    unfold retry_message
    rw [hlast]
    simp [h]
  · intro h
    unfold retry_message
    rw [hlast]
    simp [h]

/-- C9 witness: a thread ending with the agent message "hello" after the
user message "hi": retry returns exactly that agent message, with no fresh
execution and no interruption notice. -/
theorem c9_retry_last_by_author_witness :
    retry_message execEcho [userHi, agentHello] =
      .ok { returned := [agentHello], executed := none, notice := false } :=
  (c9_retry_last_by_author execEcho [userHi, agentHello] agentHello
      (by decide) (by decide)).1
    (Or.inl rfl) userHi [] [agentHello] rfl rfl (by decide)

/-- C10: when the config carries no payer, the post-model hook returns the
empty state update — no error flag, no replacement message list — and its
effect trace shows no credit-account read and no ledger write, so the tool
calls proceed ungated. -/
theorem c10_no_payer_returns_empty_update (env : PostEnv) (cfg : PostConfig)
    (messages : List LCMessage) (hne : messages ≠ []) (hpayer : cfg.payer = none) :
    postModelAfunc env cfg messages =
      .ok (emptyPostUpdate, { accountReads := [], ledgerWrites := 0 }) ∧
    emptyPostUpdate.error = none ∧ emptyPostUpdate.messages = none := by
  refine ⟨?_, rfl, rfl⟩
  unfold postModelAfunc
  rw [dif_neg hne, hpayer]

set_option maxRecDepth 4096 in
/-- C2 counterexample: at a payer with 10 units facing a 50-unit tool call,
the gate does replace the assistant turn and set the error flag, but the
synthetic message is assistant-authored (`ai`), not system-authored, and its
content carries the required amount (50) and the balance (10), not the
shortfall 40. -/
theorem c2_insufficient_message_not_system_authored :
    postModelAfunc envC2 cfgC2 [msgC2user, msgC2ai] =
      .ok ({ error := some .INSUFFICIENT_CREDITS,
             messages := some [msgC2user, removeDirective 7,
               insufficientMessage 50 10] },
           { accountReads := ["u2"], ledgerWrites := 0 }) ∧
    (insufficientMessage 50 10).role = .ai ∧
    (insufficientMessage 50 10).role ≠ .system ∧
    strContains (insufficientContent 50 10) "40" = false := by
  refine ⟨rfl, rfl, by decide, by decide⟩

/-- C2 amended: when the gate fails for a payer below the required amount,
the assistant turn is replaced by a removal directive plus a single
assistant-authored (`ai`) message whose content contains
"Insufficient credits" together with the required amount and the payer's
balance, the error flag is set to `INSUFFICIENT_CREDITS`, and the effect
trace shows no ledger write (no `CreditTransaction` is created). -/
theorem c2_gate_failure_replaces_with_ai_message (env : PostEnv)
    (cfg : PostConfig) (messages : List LCMessage) (payer : String) (c : Int)
    (hne : messages ≠ []) (hpayer : cfg.payer = some payer)
    (hcalls : (messages.getLast hne).tool_calls ≠ [])
    (hcost : lastKnownCost env.skillCost (messages.getLast hne).tool_calls = some c)
    (hinsuf : (env.account payer).has_sufficient_credits c = false) :
    postModelAfunc env cfg messages =
      .ok ({ error := some .INSUFFICIENT_CREDITS,
             messages := some (messages.dropLast ++
               [removeDirective (messages.getLast hne).id,
                insufficientMessage c (env.account payer).balance]) },
           { accountReads := [payer], ledgerWrites := 0 }) ∧
    (insufficientMessage c (env.account payer).balance).role = .ai ∧
    strContains (insufficientMessage c (env.account payer).balance).content
      "Insufficient credits" = true ∧
    strContains (insufficientMessage c (env.account payer).balance).content
      (toString c) = true ∧
    strContains (insufficientMessage c (env.account payer).balance).content
      (toString (env.account payer).balance) = true := by
  have hcont := insufficientContent_contains c (env.account payer).balance
  refine ⟨?_, rfl, hcont.1, hcont.2.1, hcont.2.2⟩
  unfold postModelAfunc
  rw [dif_neg hne, hpayer]
  simp only [if_neg hcalls, hcost, hinsuf, Bool.false_eq_true, if_false]

/-- C2 witness: the amended claim at the 50-versus-10 scenario. -/
theorem c2_gate_failure_replaces_with_ai_message_witness :
    postModelAfunc envC2 cfgC2 [msgC2user, msgC2ai] =
      .ok ({ error := some .INSUFFICIENT_CREDITS,
             messages := some [msgC2user, removeDirective 7,
               insufficientMessage 50 10] },
           { accountReads := ["u2"], ledgerWrites := 0 }) ∧
    (insufficientMessage 50 10).role = .ai ∧
    strContains (insufficientContent 50 10) "Insufficient credits" = true ∧
    strContains (insufficientContent 50 10) (toString (50 : Int)) = true ∧
    strContains (insufficientContent 50 10) (toString (10 : Int)) = true := by
  have h := c2_gate_failure_replaces_with_ai_message envC2 cfgC2
    [msgC2user, msgC2ai] "u2" 50 (by decide) rfl (by decide) (by decide) (by decide)
  exact h

/-- C5: the rebuild recomputes each class balance as the credit-direction
total minus the debit-direction total over the account's whole history; the
operation succeeds exactly when the recomputed total matches the stored
total within 0.0001, and on a larger difference it reports a mismatch and
leaves the stored balances untouched. -/
theorem c5_rebuild_recomputes_and_guards_overwrite
    (stored : Int × Int × Int) (txs : List TxRow) (dry_run : Bool) :
    calculate_credits_from_transactions txs =
      (sumBy (fun t => t.free_amount)
          (txs.filter (fun t => t.credit_debit == .credit)) -
        sumBy (fun t => t.free_amount)
          (txs.filter (fun t => t.credit_debit == .debit)),
       sumBy (fun t => t.reward_amount)
          (txs.filter (fun t => t.credit_debit == .credit)) -
        sumBy (fun t => t.reward_amount)
          (txs.filter (fun t => t.credit_debit == .debit)),
       sumBy (fun t => t.permanent_amount)
          (txs.filter (fun t => t.credit_debit == .credit)) -
        sumBy (fun t => t.permanent_amount)
          (txs.filter (fun t => t.credit_debit == .debit))) ∧
    ((process_single_account stored txs dry_run).success = true ↔
      |stored.1 + stored.2.1 + stored.2.2 - calcTotal txs| ≤ 1) ∧
    (1 < |stored.1 + stored.2.1 + stored.2.2 - calcTotal txs| →
      process_single_account stored txs dry_run =
        { success := false, changed := false, stored := stored }) := by
  refine ⟨?_, ?_, ?_⟩
  · unfold calculate_credits_from_transactions
    rw [signed_class_sum (fun t => t.free_amount) txs,
      signed_class_sum (fun t => t.reward_amount) txs,
      signed_class_sum (fun t => t.permanent_amount) txs]
  · simp only [process_single_account, calcTotal]
    split
    · rename_i hd
      simp [not_le.mpr hd]
    · rename_i hd
      split <;> simp [not_lt.mp hd]
  · intro hd
    unfold calcTotal at hd
    simp only [process_single_account]
    rw [if_pos hd]

/-- C5 witness: stored balances 5.0003 total against a single 5.0000 credit:
difference 3 units, so the operation fails and leaves the stored triple. -/
theorem c5_rebuild_recomputes_and_guards_overwrite_witness :
    process_single_account (50003, 0, 0) [txC5] false =
      { success := false, changed := false, stored := (50003, 0, 0) } :=
  (c5_rebuild_recomputes_and_guards_overwrite (50003, 0, 0) [txC5] false).2.2
    (by decide)

/-- Cutting from the end stops immediately when the final message already
matches the boundary predicate. -/
theorem dropEndUntil_concat (p : LCMessage → Bool) (l : List LCMessage)
    (x : LCMessage) (hx : p x = true) :
    dropEndUntil p (l ++ [x]) = l ++ [x] := by
  simp [dropEndUntil, hx]

/-- Cutting from the start stops immediately when the first message matches. -/
theorem dropStartUntil_cons (p : LCMessage → Bool) (m : LCMessage)
    (rest : List LCMessage) (hm : p m = true) :
    dropStartUntil p (m :: rest) = m :: rest := by
  simp [dropStartUntil, hm]

/-- A list whose total token estimate fits the budget is its own longest
fitting suffix. -/
theorem longestFittingSuffix_of_fits (tc : LCMessage → Nat) (budget : Nat)
    (ms : List LCMessage) (h : tokensOf tc ms ≤ budget) :
    longestFittingSuffix tc budget ms = ms := by
  cases ms with
  | nil => rfl
  | cons m rest => simp [longestFittingSuffix, h]

/-- C7 counterexample: the memory policy raises a `ValueError` on an empty
history instead of passing it through; and an under-budget history that
starts with an assistant message is emptied, not returned verbatim. -/
theorem c7_empty_history_raises :
    preModelAfunc nodeC7 tcLen [] =
      .raised "Missing required field messages in the input." ∧
    tokensOf tcLen [msgC7ai] ≤ nodeC7.max_summary_tokens ∧
    preModelAfunc nodeC7 tcLen [msgC7ai] = .update [] ∧
    PreOutcome.update ([] : List LCMessage) ≠ .update [msgC7ai] := by
  decide

/-- C7 amended: a non-empty trim-strategy history whose token estimate is
within the trim budget (`max_summary_tokens`) and whose boundary messages
already match — it starts with a user message and ends with a user or tool
message — is returned verbatim behind the remove-all directive. -/
theorem c7_trim_within_cap_returned_verbatim (node : PreModelNode)
    (tc : LCMessage → Nat) (messages : List LCMessage) (hne : messages ≠ [])
    (hstrat : node.short_term_memory_strategy = "trim")
    (hfit : tokensOf tc messages ≤ node.max_summary_tokens)
    (hhead : isHumanMsg (messages.head hne) = true)
    (hlast : isHumanOrToolMsg (messages.getLast hne) = true) :
    preModelAfunc node tc messages = .update messages := by
  have h1 : dropEndUntil isHumanOrToolMsg messages = messages := by
    rcases List.eq_nil_or_concat messages with h | ⟨l, x, h⟩
    · exact absurd h hne
    · rw [List.concat_eq_append] at h
      subst h
      rw [List.getLast_append _] at hlast
      exact dropEndUntil_concat _ l x hlast
  have h3 : dropStartUntil isHumanMsg messages = messages := by
    cases messages with
    | nil => rfl
    | cons m rest =>
      rw [List.head_cons] at hhead
      exact dropStartUntil_cons _ m rest hhead
  have htrim : trimMessagesLast tc node.max_summary_tokens messages = messages := by
    unfold trimMessagesLast
    rw [h1, longestFittingSuffix_of_fits tc _ messages hfit, h3]
  unfold preModelAfunc
  rw [if_neg hne, if_pos hstrat, htrim]

/-- C7 witness: the amended claim at the 2-token one-user-message history. -/
theorem c7_trim_within_cap_returned_verbatim_witness :
    preModelAfunc nodeC7 tcLen [msgC7human] = .update [msgC7human] :=
  c7_trim_within_cap_returned_verbatim nodeC7 tcLen [msgC7human] (by decide)
    rfl (by decide) (by decide) (by decide)

/-- C10 witness: the no-payer run on a history whose assistant turn carries
a tool call. -/
theorem c10_no_payer_returns_empty_update_witness :
    postModelAfunc envC10 { payer := none, agent := none } msgsC10 =
      .ok (emptyPostUpdate, { accountReads := [], ledgerWrites := 0 }) ∧
    emptyPostUpdate.error = none ∧ emptyPostUpdate.messages = none :=
  c10_no_payer_returns_empty_update envC10 { payer := none, agent := none }
    msgsC10 (by decide) rfl

end IntentKit
